import Mathlib

/-!
Shallow embedding of the multi-agent identity-coordination core of the
universal-identity-backend service (the `MultiAgentCoordinator`,
`ExplainableDecisionEngine`, `VehicleDigitalTwin` and `DigitalTwinManager`
classes), together with theorems settling the frozen claims about it.

Numbers are modelled as exact rationals.  The only JavaScript float
behaviour that matters to the claims is the `0/0 = NaN` result produced by
`approvals / totalAgents` on an empty evaluation list and the fact that
every comparison against `NaN` is false; all other comparisons in the code
compare quantities whose distance is far above double rounding error, so
exact rational comparison agrees with the float comparison.  A small
`JSNum` type records the NaN case explicitly.
-/

/-- JavaScript number resulting from a division: either a finite value, `NaN`
(from `0/0`), or `Infinity` (from `x/0`, `x > 0`; it never arises on the
code paths modelled here because the numerator is bounded by the
denominator, but it is kept for faithfulness of `jsDiv`). -/
inductive JSNum where
  | num (q : ℚ)
  | nan
  | inf
deriving DecidableEq, Inhabited

/-- JavaScript division of two finite non-negative values, as used in
`calculateConsensus` (`approvals / totalAgents` and the two averages). -/
def jsDiv (a b : ℚ) : JSNum :=
  if b = 0 then (if a = 0 then JSNum.nan else JSNum.inf) else JSNum.num (a / b)

/-- JavaScript `x >= q` for a division result `x` and a finite literal `q`:
`NaN` compares false against everything. -/
def JSNum.geQ : JSNum → ℚ → Bool
  | JSNum.num a, q => decide (q ≤ a)
  | JSNum.nan, _ => false
  | JSNum.inf, _ => true

/-- JavaScript `x <= q`. -/
def JSNum.leQ : JSNum → ℚ → Bool
  | JSNum.num a, q => decide (a ≤ q)
  | JSNum.nan, _ => false
  | JSNum.inf, _ => false

/-- JavaScript `x < q`. -/
def JSNum.ltQ : JSNum → ℚ → Bool
  | JSNum.num a, q => decide (a < q)
  | JSNum.nan, _ => false
  | JSNum.inf, _ => false

/-- One agent evaluation, as produced by `IdentityAgent.generateResponse` /
`generateByzantineResponse`.  A normal response carries no `isByzantine`
field, which JavaScript reads as the falsy `undefined`; it is modelled as
`false`. -/
structure Evaluation where
  agentId : String
  specialization : String
  decision : String
  confidence : ℚ
  securityScore : ℚ
  reasoning : List String
  isByzantine : Bool
deriving DecidableEq, Inhabited

/-- `this.consensusThreshold = 0.67` from the `MultiAgentCoordinator`
constructor.  The source comment annotates it as "2/3 majority", but the
stored value is the decimal `0.67`, which is strictly greater than `2/3`. -/
def consensusThreshold : ℚ := 0.67

/-- Result record of `MultiAgentCoordinator.calculateConsensus`. -/
structure ConsensusResult where
  approvals : Nat
  rejections : Nat
  totalAgents : Nat
  consensusRatio : JSNum
  consensusAchieved : Bool
  averageConfidence : JSNum
  averageSecurityScore : JSNum
  recommendedDecision : String
deriving DecidableEq, Inhabited

/-- Projection of the consensus ratio (avoids postfix field access in later
statements). -/
def ratioOf (c : ConsensusResult) : JSNum :=
  ConsensusResult.consensusRatio c

/-- Projection of the average confidence. -/
def averageConfidenceOf (c : ConsensusResult) : JSNum :=
  ConsensusResult.averageConfidence c

/-- `MultiAgentCoordinator.calculateConsensus`: count approvals, derive the
ratio and averages, and compare the ratio against the hard-coded
threshold. -/
def calculateConsensus (evaluations : List Evaluation) : ConsensusResult :=
  let approvals := (evaluations.filter (fun e => e.decision = "APPROVED")).length
  let totalAgents := evaluations.length
  let r := jsDiv approvals totalAgents
  { approvals := approvals
    rejections := totalAgents - approvals
    totalAgents := totalAgents
    consensusRatio := r
    consensusAchieved := r.geQ consensusThreshold
    averageConfidence := jsDiv (evaluations.map (fun e => e.confidence)).sum totalAgents
    averageSecurityScore := jsDiv (evaluations.map (fun e => e.securityScore)).sum totalAgents
    recommendedDecision := if r.geQ consensusThreshold then "APPROVED" else "REJECTED" }

/-- The `byzantineFaultHandling` record built by
`MultiAgentCoordinator.handleByzantineFaults`.  In the branch with no
Byzantine evaluations the source object carries only
`byzantineAgentsDetected` and `faultTolerant`; the absent properties are
modelled as `none`. -/
structure ByzantineFaultHandling where
  byzantineAgentsDetected : Nat
  byzantineAgentIds : Option (List String)
  originalDecision : Option String
  correctedDecision : Option String
  faultTolerant : Bool
deriving DecidableEq, Inhabited

/-- The object returned by `handleByzantineFaults`: the JavaScript spread
`{...consensus, byzantineFaultHandling, finalDecision}` copies every
`ConsensusResult` property and adds the two extra ones; the copied
properties are modelled as the nested `consensus` field. -/
structure FinalDecisionObj where
  consensus : ConsensusResult
  byzantineFaultHandling : ByzantineFaultHandling
  finalDecision : String
deriving DecidableEq, Inhabited

/-- `MultiAgentCoordinator.handleByzantineFaults`. -/
def handleByzantineFaults (consensus : ConsensusResult)
    (evaluations : List Evaluation) : FinalDecisionObj :=
  let byzantineAgents := evaluations.filter (fun e => e.isByzantine)
  if 0 < byzantineAgents.length then
    let honestEvaluations := evaluations.filter (fun e => !e.isByzantine)
    let honestConsensus := calculateConsensus honestEvaluations
    { consensus := consensus
      byzantineFaultHandling :=
        { byzantineAgentsDetected := byzantineAgents.length
          byzantineAgentIds := some (byzantineAgents.map (fun e => e.agentId))
          originalDecision := some consensus.recommendedDecision
          correctedDecision := some honestConsensus.recommendedDecision
          faultTolerant := true }
      finalDecision := honestConsensus.recommendedDecision }
  else
    { consensus := consensus
      byzantineFaultHandling :=
        { byzantineAgentsDetected := 0
          byzantineAgentIds := none
          originalDecision := none
          correctedDecision := none
          faultTolerant := true }
      finalDecision := consensus.recommendedDecision }

/-- The value stored in a session's `finalDecision` property, as seen by a
JavaScript strict-equality comparison: either a string, the
`handleByzantineFaults` object, or `undefined` (reading the property off
the error-path result, which lacks it). -/
inductive JSValue where
  | str (s : String)
  | obj (f : FinalDecisionObj)
  | undef
deriving DecidableEq, Inhabited

/-- JavaScript strict equality `v === s` against a string literal: an
object or `undefined` is never strictly equal to a string. -/
def jsStrictEqStr (v : JSValue) (s : String) : Bool :=
  match v with
  | JSValue.str t => t = s
  | JSValue.obj _ => false
  | JSValue.undef => false

/-- An agent of the fixed roster (`IdentityAgent` fields read by the
coordinator). -/
structure Agent where
  agentId : String
  specialization : String
  status : String
  isByzantine : Bool
deriving DecidableEq, Inhabited

/-- The roster built in the `MultiAgentCoordinator` constructor. -/
def defaultAgents : List Agent :=
  [ { agentId := "agent-validator-001", specialization := "validator",
      status := "online", isByzantine := false },
    { agentId := "agent-consensus-002", specialization := "consensus",
      status := "online", isByzantine := false },
    { agentId := "agent-security-003", specialization := "security",
      status := "online", isByzantine := false } ]

/-- Successful coordination session record
(`MultiAgentCoordinator.coordinateIdentityDecision`, success path). -/
structure CoordinationSession where
  coordinationId : String
  identityId : String
  timestamp : String
  participatingAgents : Nat
  agentEvaluations : List Evaluation
  consensus : ConsensusResult
  finalDecision : JSValue
  processingTime : Nat
  byzantineDetected : Bool
deriving DecidableEq, Inhabited

/-- The object returned from the `catch` branch of
`coordinateIdentityDecision`: note it carries no `participatingAgents`
property. -/
structure ErrorSession where
  coordinationId : String
  error : String
  timestamp : String
  processingTime : Nat
deriving DecidableEq, Inhabited

/-- Return value of `coordinateIdentityDecision`: a normal session or the
catch-branch error record. -/
inductive CoordResult where
  | session (s : CoordinationSession)
  | err (e : ErrorSession)
deriving DecidableEq, Inhabited

/-- `Promise.all` over the dispatched evaluations: succeeds with the list
of results when every promise fulfills, otherwise rejects with an error
message (the first failing entry in roster order stands in for the
first-settled rejection; which message wins does not affect any claim). -/
def collectAll : List (Except String Evaluation) → Except String (List Evaluation)
  | [] => Except.ok []
  | Except.error m :: _ => Except.error m
  | Except.ok e :: rest =>
    match collectAll rest with
    | Except.error m => Except.error m
    | Except.ok es => Except.ok (e :: es)

/-- `MultiAgentCoordinator.coordinateIdentityDecision`.  Agent evaluation is
randomized and asynchronous in the source (`IdentityAgent.evaluateIdentity`);
it is modelled by the `evaluator` parameter giving each dispatched call's
settled outcome.  Wall-clock quantities (`coordinationId`, timestamps,
`processingTime`) are likewise passed in.  The session is pushed onto the
coordinator's history and the history trimmed to 50 entries; that
append-and-trim step is modelled separately by `pushCoordinationHistory`. -/
def coordinateIdentityDecision (agents : List Agent)
    (evaluator : Agent → Except String Evaluation)
    (identityId coordinationId nowTs : String) (elapsed : Nat) : CoordResult :=
  match collectAll ((agents.filter (fun a => a.status = "online")).map evaluator) with
  | Except.error msg =>
    CoordResult.err
      { coordinationId := coordinationId, error := msg,
        timestamp := nowTs, processingTime := elapsed }
  | Except.ok agentEvaluations =>
    let consensus := calculateConsensus agentEvaluations
    let fd := handleByzantineFaults consensus agentEvaluations
    CoordResult.session
      { coordinationId := coordinationId
        identityId := identityId
        timestamp := nowTs
        participatingAgents := agentEvaluations.length
        agentEvaluations := agentEvaluations
        consensus := consensus
        finalDecision := JSValue.obj fd
        processingTime := elapsed
        byzantineDetected := agentEvaluations.any (fun e => e.isByzantine) }

/-- Whether a coordination result is the catch-branch error record. -/
def isErrorResult : CoordResult → Bool
  | CoordResult.session _ => false
  | CoordResult.err _ => true

/-- Extract the session of a success result (default on the error path). -/
def sessionOf : CoordResult → CoordinationSession
  | CoordResult.session s => s
  | CoordResult.err _ => default

/-- Reading the `finalDecision` property off a coordination result, as a
JavaScript value: the error record has no such property, so the read
yields `undefined`. -/
def finalDecisionValueOf : CoordResult → JSValue
  | CoordResult.session s => s.finalDecision
  | CoordResult.err _ => JSValue.undef

/-- The string nested inside the `finalDecision` object (what
`finalDecision.finalDecision` reads on the success path). -/
def nestedDecisionOf (r : CoordResult) : String :=
  match finalDecisionValueOf r with
  | JSValue.obj f => f.finalDecision
  | _ => ""

-- Demo inputs used by closed theorems and witnesses. ------------------------

/-- An honest approving evaluation of the shape produced by
`generateResponse` (whose confidence and security score are drawn randomly
from [0.85, 0.95] and [0.7, 1.0]; the demo fixes representative values). -/
def approvedEvaluation (a : Agent) : Evaluation :=
  { agentId := a.agentId, specialization := a.specialization,
    decision := "APPROVED", confidence := 0.9, securityScore := 0.8,
    reasoning := [], isByzantine := false }

/-- The fixed malicious evaluation from `generateByzantineResponse`. -/
def byzantineEvaluation (a : Agent) : Evaluation :=
  { agentId := a.agentId, specialization := a.specialization,
    decision := "REJECTED", confidence := 0.2, securityScore := 0.1,
    reasoning := ["Byzantine fault simulation: MALICIOUS_REJECTION"],
    isByzantine := true }

/-- An honest rejecting evaluation (same shape, `REJECTED` decision). -/
def rejectedEvaluation (a : Agent) : Evaluation :=
  { agentId := a.agentId, specialization := a.specialization,
    decision := "REJECTED", confidence := 0.5, securityScore := 0.6,
    reasoning := [], isByzantine := false }

/-- Dispatch outcome where every agent fulfills with an approval. -/
def demoEvaluator (a : Agent) : Except String Evaluation :=
  Except.ok (approvedEvaluation a)

/-- The default roster taken fully offline (the spec's "all agents
offline" scenario). -/
def offlineAgents : List Agent :=
  defaultAgents.map (fun a => { a with status := "offline" })

/-- A fully honest, fully approving coordination run on the default
roster. -/
def demoCoordination : CoordResult :=
  coordinateIdentityDecision defaultAgents demoEvaluator
    "PET-TWIN-PET-1" "coord-1" "2025-01-01T00:00:00.000Z" 120

/-- The evaluation list of the spec's boundary scenario: three agents, two
approvals, one honest rejection (ratio exactly 2/3). -/
def twoOfThreeEvals : List Evaluation :=
  match defaultAgents with
  | [a, b, c] => [approvedEvaluation a, approvedEvaluation b, rejectedEvaluation c]
  | _ => []

example : isErrorResult demoCoordination = false := by
  simp only [demoCoordination, coordinateIdentityDecision, defaultAgents,
    demoEvaluator, collectAll, List.filter, List.map, String.reduceEq,
    isErrorResult]

example : nestedDecisionOf demoCoordination = "APPROVED" := by
  simp only [demoCoordination, coordinateIdentityDecision, defaultAgents,
    demoEvaluator, collectAll, List.filter, List.map, String.reduceEq,
    nestedDecisionOf, finalDecisionValueOf, handleByzantineFaults,
    calculateConsensus, approvedEvaluation, List.length]
  norm_num [jsDiv, JSNum.geQ, consensusThreshold]

example : (calculateConsensus twoOfThreeEvals).consensusAchieved = false := by
  simp only [twoOfThreeEvals, defaultAgents, calculateConsensus,
    approvedEvaluation, rejectedEvaluation, List.filter, String.reduceEq,
    List.length]
  norm_num [jsDiv, JSNum.geQ, consensusThreshold]

-- History trimming (coordination sessions and explanations). ----------------

/-- The shared push-and-trim pattern: `history.push(x)` followed by
`if (history.length > cap) history = history.slice(-cap)`.
`slice(-cap)` keeps the last `cap` entries. -/
def pushTrim {α : Type} (cap : Nat) (h : List α) (x : α) : List α :=
  let h2 := h ++ [x]
  if cap < h2.length then h2.drop (h2.length - cap) else h2

/-- Keep only the last `cap` entries of a list. -/
def dropExcess {α : Type} (cap : Nat) (l : List α) : List α :=
  l.drop (l.length - cap)

/-- The session-history update of `coordinateIdentityDecision`
(capacity 50). -/
def pushCoordinationHistory (h : List CoordinationSession)
    (s : CoordinationSession) : List CoordinationSession :=
  pushTrim 50 h s

-- Explainable decision engine. ----------------------------------------------

/-- `this.confidenceWeights` from the `ExplainableDecisionEngine`
constructor, combined with the `|| 0.33` fallback applied at every lookup
site: validator 0.4, consensus 0.35, security 0.25, anything else 0.33. -/
def confidenceWeight (s : String) : ℚ :=
  if s = "validator" then 0.4
  else if s = "consensus" then 0.35
  else if s = "security" then 0.25
  else 0.33

/-- The per-evaluation accumulation step of
`calculateDetailedConfidence`'s `forEach` loop: non-Byzantine evaluations
add `confidence × weight` and `weight` to the two accumulators. -/
def confidenceStep (acc : ℚ × ℚ) (e : Evaluation) : ℚ × ℚ :=
  if e.isByzantine then acc
  else (acc.1 + e.confidence * confidenceWeight e.specialization,
        acc.2 + confidenceWeight e.specialization)

/-- The `confidenceBreakdown` record of
`ExplainableDecisionEngine.calculateDetailedConfidence` (the `byAgent`
entries carry agent id, confidence and weight). -/
structure DetailedConfidence where
  overall : ℚ
  byAgent : List (String × ℚ × ℚ)
  methodology : String
deriving DecidableEq, Inhabited

/-- `ExplainableDecisionEngine.calculateDetailedConfidence`. -/
def calculateDetailedConfidence (agentEvaluations : List Evaluation) :
    DetailedConfidence :=
  let acc := agentEvaluations.foldl confidenceStep (0, 0)
  { overall := if 0 < acc.2 then acc.1 / acc.2 else 0
    byAgent := agentEvaluations.map
      (fun e => (e.agentId, e.confidence, confidenceWeight e.specialization))
    methodology := "Weighted average by agent specialization" }

/-- `ExplainableDecisionEngine.calculateAnomalyScore`: four independent
additive triggers, then `Math.min(1.0, score)`. -/
def calculateAnomalyScore (r : CoordinationSession) : ℚ :=
  let s1 : ℚ := if 3000 < r.processingTime then 0.3 else 0
  let s2 : ℚ := s1 + (if JSNum.ltQ (ratioOf r.consensus) 0.7 then 0.4 else 0)
  let s3 : ℚ := s2 + (if r.byzantineDetected then 0.5 else 0)
  let s4 : ℚ := s3 + (if JSNum.ltQ (averageConfidenceOf r.consensus) 0.5 then 0.6 else 0)
  min 1 s4

/-- Modelled from the spec: the anomaly score as a clamp-to-1 of the sum of
the four trigger indicators, stated over the four trigger booleans. -/
def anomalySpec (b1 b2 b3 b4 : Bool) : ℚ :=
  min 1 ((if b1 then (0.3 : ℚ) else 0) + (if b2 then (0.4 : ℚ) else 0)
    + (if b3 then (0.5 : ℚ) else 0) + (if b4 then (0.6 : ℚ) else 0))

/-- Modelled from the spec: weighted confidence as
`Σ(confidence_i × weight_i) / Σ(weight_i)` over the non-Byzantine
evaluations (ℚ division by zero is 0, matching the code's explicit 0
convention for an empty or all-Byzantine set). -/
def specWeightedConfidence (agentEvaluations : List Evaluation) : ℚ :=
  let honest := agentEvaluations.filter (fun e => !e.isByzantine)
  (honest.map (fun e => e.confidence * confidenceWeight e.specialization)).sum
    / (honest.map (fun e => confidenceWeight e.specialization)).sum

/-- Sum of `confidence × weight` over the non-Byzantine evaluations. -/
def honestWeightedSum (agentEvaluations : List Evaluation) : ℚ :=
  ((agentEvaluations.filter (fun e => !e.isByzantine)).map
    (fun e => e.confidence * confidenceWeight e.specialization)).sum

/-- Sum of the weights over the non-Byzantine evaluations. -/
def honestWeightSum (agentEvaluations : List Evaluation) : ℚ :=
  ((agentEvaluations.filter (fun e => !e.isByzantine)).map
    (fun e => confidenceWeight e.specialization)).sum

/-- The explanation record built by
`ExplainableDecisionEngine.explainCoordination`, restricted to the fields
the claims are about; the purely presentational string fields (summary,
risk factors, reasoning-step narrative, ML feature vector) are omitted. -/
structure Explanation where
  coordinationId : String
  confidenceBreakdown : DetailedConfidence
  anomalyScore : ℚ
deriving DecidableEq, Inhabited

/-- `ExplainableDecisionEngine.explainCoordination`: build the explanation
for a session and append it to the engine's `decisionHistory`, trimming
the history to 100 entries. -/
def explainCoordination (decisionHistory : List Explanation)
    (r : CoordinationSession) : Explanation × List Explanation :=
  let explanation : Explanation :=
    { coordinationId := r.coordinationId
      confidenceBreakdown := calculateDetailedConfidence r.agentEvaluations
      anomalyScore := calculateAnomalyScore r }
  (explanation, pushTrim 100 decisionHistory explanation)

-- Vehicle digital twin health score. ----------------------------------------

/-- The fields of a `VehicleDigitalTwin.currentState` reading that
`updateHealthScore` reads, plus the remaining numeric telemetry fields. -/
structure VehicleReading where
  engineTemp : ℚ
  oilPressure : ℚ
  batteryVoltage : ℚ
  fuelLevel : ℚ
  mileage : ℚ
  diagnosticCodes : List String
deriving DecidableEq, Inhabited

/-- The mutable `VehicleDigitalTwin` state touched by
`updateHealthScore`: the current reading, the rolling telemetry history,
the derived health score and the alert counter. -/
structure VehicleTwinState where
  currentState : VehicleReading
  telemetryData : List (String × VehicleReading)
  healthScore : ℚ
  alertCount : Nat
deriving DecidableEq, Inhabited

/-- `VehicleDigitalTwin.updateHealthScore`: deduction table over the
current reading (engine temperature has a second, milder branch at 90),
floored at 0, plus the one-shot alert-count bump. -/
def updateHealthScore (t : VehicleTwinState) : VehicleTwinState :=
  let r := t.currentState
  let score0 : ℚ := 100
  let score1 : ℚ :=
    if 100 < r.engineTemp then score0 - 20
    else if 90 < r.engineTemp then score0 - 10
    else score0
  let score2 : ℚ := if r.oilPressure < 25 then score1 - 15 else score1
  let score3 : ℚ := if r.batteryVoltage < 12.0 then score2 - 10 else score2
  let score4 : ℚ := score3 - (r.diagnosticCodes.length : ℚ) * 5
  let hs : ℚ := max 0 score4
  { t with
    healthScore := hs
    alertCount := if hs < 80 ∧ t.alertCount = 0 then t.alertCount + 1 else t.alertCount }

/-- Modelled from the claim: the deduction table exactly as the claim
states it (20 for engine temperature above 100, 15 for low oil pressure,
10 for low battery voltage, 5 per diagnostic code, floored at 0 — with no
deduction for temperatures in (90, 100]). -/
def claimHealthScoreTable (r : VehicleReading) : ℚ :=
  max 0 (100 - (if 100 < r.engineTemp then (20 : ℚ) else 0)
    - (if r.oilPressure < 25 then (15 : ℚ) else 0)
    - (if r.batteryVoltage < 12.0 then (10 : ℚ) else 0)
    - (r.diagnosticCodes.length : ℚ) * 5)

/-- The amended deduction table: identical to the claim's but with the
source's second engine-temperature branch (10 deducted when the
temperature is above 90 but not above 100). -/
def vehicleDeductionTable (r : VehicleReading) : ℚ :=
  max 0 (100 - (if 100 < r.engineTemp then (20 : ℚ)
      else if 90 < r.engineTemp then (10 : ℚ) else 0)
    - (if r.oilPressure < 25 then (15 : ℚ) else 0)
    - (if r.batteryVoltage < 12.0 then (10 : ℚ) else 0)
    - (r.diagnosticCodes.length : ℚ) * 5)

-- Digital twin manager (pet twin creation). ---------------------------------

/-- A pet digital twin as stored by the manager.  The source constructor
also seeds randomized vital-sign state and starts a periodic simulation
timer; only the identity-carrying fields are modelled. -/
structure PetTwin where
  twinId : String
  petId : String
  metadata : String
deriving DecidableEq, Inhabited

/-- JavaScript `Map.set`: overwrite the entry for the key if present,
otherwise append it. -/
def mapSet (m : List (String × PetTwin)) (k : String) (v : PetTwin) :
    List (String × PetTwin) :=
  if m.any (fun p => p.1 = k) then
    m.map (fun p => if p.1 = k then (k, v) else p)
  else m ++ [(k, v)]

/-- `DigitalTwinManager.createPetTwin`: coordinate a synthetic identity
decision for `PET-TWIN-<petId>`, throw the rejection error unless the
session's `finalDecision` property is strictly equal to the string
`'APPROVED'`, otherwise construct the twin and store it under the pet id.
(`createDigitalTwin` and `createIoTTwin` guard twin construction with the
same strict-equality check.) -/
def createPetTwin (agents : List Agent)
    (evaluator : Agent → Except String Evaluation)
    (petId metadata coordinationId nowTs : String) (elapsed : Nat)
    (petTwins : List (String × PetTwin)) :
    Except String (PetTwin × List (String × PetTwin)) :=
  let coordinationResult :=
    coordinateIdentityDecision agents evaluator ("PET-TWIN-" ++ petId)
      coordinationId nowTs elapsed
  if jsStrictEqStr (finalDecisionValueOf coordinationResult) "APPROVED" = false then
    Except.error "Pet twin creation rejected by multi-agent consensus"
  else
    let petTwin : PetTwin :=
      { twinId := "PET-TWIN-" ++ petId, petId := petId, metadata := metadata }
    Except.ok (petTwin, mapSet petTwins petId petTwin)

-- Further demo inputs for closed theorems and witnesses. ---------------------

/-- Two honest approvals plus one Byzantine rejection (the roster's
security agent turned malicious). -/
def mixedEvals : List Evaluation :=
  match defaultAgents with
  | [a, b, c] => [approvedEvaluation a, approvedEvaluation b, byzantineEvaluation c]
  | _ => []

/-- Every agent of the roster turned Byzantine. -/
def allByzantineEvals : List Evaluation :=
  defaultAgents.map byzantineEvaluation

/-- One honest approval against two Byzantine rejections: low ratio, low
confidence, Byzantine detected. -/
def lowConsensusEvals : List Evaluation :=
  match defaultAgents with
  | [a, b, c] => [approvedEvaluation a, byzantineEvaluation b, byzantineEvaluation c]
  | _ => []

/-- A session hitting the Byzantine, low-ratio and low-confidence anomaly
triggers at once (ratio 1/3, average confidence 0.9+0.2+0.2 over 3 < 0.5),
but not the latency trigger. -/
def tripleTriggerSession : CoordinationSession :=
  { coordinationId := "coord-anomaly"
    identityId := "IOT-9"
    timestamp := "2025-01-01T00:00:00.000Z"
    participatingAgents := 3
    agentEvaluations := lowConsensusEvals
    consensus := calculateConsensus lowConsensusEvals
    finalDecision := JSValue.obj
      (handleByzantineFaults (calculateConsensus lowConsensusEvals) lowConsensusEvals)
    processingTime := 120
    byzantineDetected := lowConsensusEvals.any (fun e => e.isByzantine) }

/-- A current reading with engine temperature 95: above 90 but not above
100, so the source deducts 10 where the claim's table deducts nothing. -/
def reading95 : VehicleReading :=
  { engineTemp := 95, oilPressure := 40, batteryVoltage := 12.5,
    fuelLevel := 50, mileage := 45000, diagnosticCodes := [] }

/-- A twin holding `reading95` with an empty telemetry history. -/
def twinState95 : VehicleTwinState :=
  { currentState := reading95, telemetryData := [], healthScore := 100,
    alertCount := 0 }

/-- The same twin after its history filled up: identical current reading,
20 telemetry entries. -/
def twinState95Full : VehicleTwinState :=
  { currentState := reading95
    telemetryData := List.replicate 20 ("2025-01-01T00:00:00.000Z", reading95)
    healthScore := 100
    alertCount := 0 }

-- ===========================================================================
-- Helper lemmas (shared across the claim theorems).
-- ===========================================================================

/-- `collectAll` rejects exactly when some dispatched evaluation rejected. -/
theorem collectAll_error_iff (l : List (Except String Evaluation)) :
    (∃ m, collectAll l = Except.error m) ↔ ∃ x ∈ l, ∃ m, x = Except.error m := by
  induction l with
  | nil => simp [collectAll]
  | cons x rest ih =>
    cases x with
    | error m => simp [collectAll]
    | ok e =>
      cases hc : collectAll rest with
      | error m =>
        have h1 : collectAll (Except.ok e :: rest) = Except.error m := by
          simp [collectAll, hc]
        simp only [h1, List.mem_cons]
        constructor
        · intro _
          rcases ih.mp ⟨m, hc⟩ with ⟨y, hy, m2, hm2⟩
          exact ⟨y, Or.inr hy, m2, hm2⟩
        · intro _
          exact ⟨m, rfl⟩
      | ok es =>
        have h1 : collectAll (Except.ok e :: rest) = Except.ok (e :: es) := by
          simp [collectAll, hc]
        simp only [h1, List.mem_cons]
        constructor
        · rintro ⟨m, hm⟩
          exact Except.noConfusion hm
        · rintro ⟨y, hy | hy, m, hm⟩
          · rw [hy] at hm
            exact Except.noConfusion hm
          · rcases ih.mpr ⟨y, hy, m, hm⟩ with ⟨m2, hm2⟩
            rw [hm2] at hc
            exact Except.noConfusion hc

/-- `pushTrim` always keeps exactly the last `cap` entries of the appended
list. -/
theorem pushTrim_eq_dropExcess {α : Type} (cap : Nat) (h : List α) (x : α) :
    pushTrim cap h x = dropExcess cap (h ++ [x]) := by
  simp only [pushTrim, dropExcess]
  split
  · rfl
  · next hle =>
    have h0 : (h ++ [x]).length - cap = 0 := by omega
    rw [h0, List.drop_zero]

/-- The trimmed suffix never exceeds the capacity. -/
theorem dropExcess_length_le {α : Type} (cap : Nat) (l : List α) :
    (dropExcess cap l).length ≤ cap := by
  simp only [dropExcess, List.length_drop]
  omega

/-- Trimming, appending more, and trimming again is the same as trimming
the full append: the kept entries form a suffix of everything appended. -/
theorem dropExcess_absorb {α : Type} (cap : Nat) (A rest : List α) :
    dropExcess cap (dropExcess cap A ++ rest) = dropExcess cap (A ++ rest) := by
  unfold dropExcess
  rw [← List.drop_append_of_le_length (Nat.sub_le A.length cap), List.drop_drop]
  congr 1
  simp only [List.length_drop, List.length_append]
  omega

/-- Folding `pushTrim` keeps exactly the last `cap` entries of everything
ever appended (starting from a within-capacity history). -/
theorem foldl_pushTrim {α : Type} (cap : Nat) (xs : List α) :
    ∀ (h : List α), h.length ≤ cap →
      xs.foldl (pushTrim cap) h = dropExcess cap (h ++ xs) := by
  induction xs with
  | nil =>
    intro h hle
    simp [dropExcess, Nat.sub_eq_zero_of_le hle]
  | cons x rest ih =>
    intro h hle
    have hlen : (pushTrim cap h x).length ≤ cap := by
      rw [pushTrim_eq_dropExcess]
      exact dropExcess_length_le cap (h ++ [x])
    rw [List.foldl_cons, ih _ hlen, pushTrim_eq_dropExcess, dropExcess_absorb]
    simp [List.append_assoc]

/-- Every specialization weight (including the `|| 0.33` fallback) is
positive. -/
theorem confidenceWeight_pos (s : String) : 0 < confidenceWeight s := by
  unfold confidenceWeight
  split_ifs <;> norm_num

/-- The `forEach` accumulation of `calculateDetailedConfidence` computes the
two sums over the non-Byzantine evaluations. -/
theorem foldl_confidenceStep (agentEvaluations : List Evaluation) :
    ∀ (a b : ℚ), agentEvaluations.foldl confidenceStep (a, b)
      = (a + honestWeightedSum agentEvaluations, b + honestWeightSum agentEvaluations) := by
  induction agentEvaluations with
  | nil => intro a b; simp [honestWeightedSum, honestWeightSum]
  | cons e rest ih =>
    intro a b
    cases hb : e.isByzantine with
    | true =>
      simp only [List.foldl_cons, confidenceStep, hb, if_pos rfl, ih,
        honestWeightedSum, honestWeightSum, List.filter_cons, Bool.not_true]
      simp
    | false =>
      simp only [List.foldl_cons, confidenceStep, hb, Bool.false_eq_true,
        if_false, ih, honestWeightedSum, honestWeightSum, List.filter_cons,
        Bool.not_false, if_pos trivial, List.map_cons, List.sum_cons]
      rw [Prod.mk.injEq]
      constructor <;> ring

/-- A sum of positives over a non-empty list is positive, and over any list
non-negative (specialized to the weight sums). -/
theorem honestWeightSum_nonneg (agentEvaluations : List Evaluation) :
    0 ≤ honestWeightSum agentEvaluations := by
  unfold honestWeightSum
  apply List.sum_nonneg
  intro q hq
  rcases List.mem_map.mp hq with ⟨e, _, rfl⟩
  exact le_of_lt (confidenceWeight_pos e.specialization)

/-- If some evaluation is honest, the weight sum is strictly positive. -/
theorem honestWeightSum_pos (agentEvaluations : List Evaluation)
    (hne : agentEvaluations.filter (fun e => !e.isByzantine) ≠ []) :
    0 < honestWeightSum agentEvaluations := by
  unfold honestWeightSum
  cases hf : agentEvaluations.filter (fun e => !e.isByzantine) with
  | nil => exact absurd hf hne
  | cons e rest =>
    simp only [List.map_cons, List.sum_cons]
    have h1 : 0 ≤ (rest.map (fun e => confidenceWeight e.specialization)).sum := by
      apply List.sum_nonneg
      intro q hq
      rcases List.mem_map.mp hq with ⟨e2, _, rfl⟩
      exact le_of_lt (confidenceWeight_pos e2.specialization)
    have h2 := confidenceWeight_pos e.specialization
    linarith

/-- If all evaluations are Byzantine, both accumulated sums are zero. -/
theorem honestSums_zero_of_all_byzantine (agentEvaluations : List Evaluation)
    (hall : ∀ e ∈ agentEvaluations, e.isByzantine = true) :
    honestWeightedSum agentEvaluations = 0 ∧ honestWeightSum agentEvaluations = 0 := by
  have hf : agentEvaluations.filter (fun e => !e.isByzantine) = [] := by
    rw [List.filter_eq_nil_iff]
    intro e he
    simp [hall e he]
  constructor <;> simp [honestWeightedSum, honestWeightSum, hf]

/-- Monotonicity of a guarded non-negative summand in its trigger. -/
theorem ite_trigger_mono (b c : Bool) (himp : b = true → c = true) (x : ℚ)
    (hx : 0 ≤ x) : (if b then x else 0) ≤ (if c then x else 0) := by
  cases b with
  | false => cases c <;> simp [hx]
  | true => rw [himp rfl]

-- ===========================================================================
-- Claim theorems.
-- ===========================================================================

/-- Claim C1 (code behaviour at the claimed boundary): on the spec's
boundary scenario of three evaluations with exactly two approvals,
`calculateConsensus` computes the exact ratio 2/3 but reports consensus NOT
achieved and recommends REJECTED, because the stored threshold `0.67` is
strictly greater than 2/3 — contradicting both the claim and the source's
own "2/3 majority" comment. -/
theorem claim_C1_two_of_three_rejected :
    (calculateConsensus twoOfThreeEvals).consensusAchieved = false
    ∧ (calculateConsensus twoOfThreeEvals).recommendedDecision = "REJECTED"
    ∧ ratioOf (calculateConsensus twoOfThreeEvals) = JSNum.num (2 / 3)
    ∧ (2 : ℚ) / 3 < consensusThreshold := by
  simp only [twoOfThreeEvals, defaultAgents, calculateConsensus,
    approvedEvaluation, rejectedEvaluation, List.filter, String.reduceEq,
    List.length, ratioOf]
  norm_num [jsDiv, JSNum.geQ, consensusThreshold]

/-- Claim C2 (code behaviour at the failing input): a fully honest, fully
approving coordination for pet id PET-1 yields a session whose nested final
decision string is APPROVED, yet `createPetTwin` still fails with the
rejection error (and hence stores nothing), because it compares the
`finalDecision` object — not the nested string — against 'APPROVED'. -/
theorem claim_C2_approved_creation_still_fails :
    nestedDecisionOf demoCoordination = "APPROVED"
    ∧ createPetTwin defaultAgents demoEvaluator "PET-1" "demo-metadata"
        "coord-1" "2025-01-01T00:00:00.000Z" 120 []
        = Except.error "Pet twin creation rejected by multi-agent consensus" := by
  constructor
  · simp only [demoCoordination, coordinateIdentityDecision, defaultAgents,
      demoEvaluator, collectAll, List.filter, List.map, String.reduceEq,
      nestedDecisionOf, finalDecisionValueOf, handleByzantineFaults,
      calculateConsensus, approvedEvaluation, List.length]
    norm_num [jsDiv, JSNum.geQ, consensusThreshold]
  · rfl

/-- Claim C3: on every success path, the session's `finalDecision` property
holds the `handleByzantineFaults` object (never the bare decision string),
so a strict-equality comparison of that property against the string
'APPROVED' is false for every input. -/
theorem claim_C3_final_decision_is_object
    (agents : List Agent) (evaluator : Agent → Except String Evaluation)
    (identityId coordinationId nowTs : String) (elapsed : Nat)
    (s : CoordinationSession)
    (h : coordinateIdentityDecision agents evaluator identityId coordinationId
      nowTs elapsed = CoordResult.session s) :
    s.finalDecision = JSValue.obj
      (handleByzantineFaults (calculateConsensus s.agentEvaluations) s.agentEvaluations)
    ∧ jsStrictEqStr s.finalDecision "APPROVED" = false := by
  unfold coordinateIdentityDecision at h
  cases hc : collectAll ((agents.filter (fun a => a.status = "online")).map evaluator) with
  | error m =>
    rw [hc] at h
    exact CoordResult.noConfusion h
  | ok evals =>
    rw [hc] at h
    injection h with hs
    rw [← hs]
    exact ⟨rfl, rfl⟩

/-- Witness for C3: the fully approving demo coordination takes the success
path and its session's `finalDecision` property is not the string
'APPROVED'. -/
theorem claim_C3_witness :
    demoCoordination = CoordResult.session (sessionOf demoCoordination)
    ∧ jsStrictEqStr (sessionOf demoCoordination).finalDecision "APPROVED" = false := by
  have h : coordinateIdentityDecision defaultAgents demoEvaluator
      "PET-TWIN-PET-1" "coord-1" "2025-01-01T00:00:00.000Z" 120
      = CoordResult.session (sessionOf demoCoordination) := rfl
  exact ⟨h, (claim_C3_final_decision_is_object defaultAgents demoEvaluator
    "PET-TWIN-PET-1" "coord-1" "2025-01-01T00:00:00.000Z" 120
    (sessionOf demoCoordination) h).2⟩

/-- Claim C4: for every non-empty evaluation list, `handleByzantineFaults`
returns the corrected consensus recommendation as the final decision when
some evaluation is Byzantine-flagged (recording the count, the flagged
agent ids, the original and corrected decisions, and the fault-tolerant
marker), and the original recommendation with a zero count otherwise. -/
theorem claim_C4_byzantine_fault_handling
    (evaluations : List Evaluation) (_hne : evaluations ≠ []) :
    ((evaluations.filter (fun e => e.isByzantine)) ≠ [] →
      (handleByzantineFaults (calculateConsensus evaluations) evaluations).finalDecision
        = (calculateConsensus (evaluations.filter (fun e => !e.isByzantine))).recommendedDecision
      ∧ (handleByzantineFaults (calculateConsensus evaluations) evaluations).byzantineFaultHandling.byzantineAgentsDetected
        = (evaluations.filter (fun e => e.isByzantine)).length
      ∧ (handleByzantineFaults (calculateConsensus evaluations) evaluations).byzantineFaultHandling.byzantineAgentIds
        = some ((evaluations.filter (fun e => e.isByzantine)).map (fun e => e.agentId))
      ∧ (handleByzantineFaults (calculateConsensus evaluations) evaluations).byzantineFaultHandling.originalDecision
        = some (calculateConsensus evaluations).recommendedDecision
      ∧ (handleByzantineFaults (calculateConsensus evaluations) evaluations).byzantineFaultHandling.correctedDecision
        = some (calculateConsensus (evaluations.filter (fun e => !e.isByzantine))).recommendedDecision
      ∧ (handleByzantineFaults (calculateConsensus evaluations) evaluations).byzantineFaultHandling.faultTolerant
        = true)
    ∧ ((evaluations.filter (fun e => e.isByzantine)) = [] →
      (handleByzantineFaults (calculateConsensus evaluations) evaluations).finalDecision
        = (calculateConsensus evaluations).recommendedDecision
      ∧ (handleByzantineFaults (calculateConsensus evaluations) evaluations).byzantineFaultHandling.byzantineAgentsDetected
        = 0) := by
  constructor
  · intro hb
    have hpos : 0 < (evaluations.filter (fun e => e.isByzantine)).length :=
      List.length_pos.mpr hb
    simp [handleByzantineFaults, if_pos hpos]
  · intro hb
    have hz : (evaluations.filter (fun e => e.isByzantine)).length = 0 := by
      rw [hb]
      rfl
    simp [handleByzantineFaults, hz]

/-- Witness for C4: two honest approvals plus one Byzantine rejection —
the final decision is the consensus recomputed over the two honest
evaluations, and one Byzantine agent is counted. -/
theorem claim_C4_witness :
    (handleByzantineFaults (calculateConsensus mixedEvals) mixedEvals).finalDecision
      = (calculateConsensus (mixedEvals.filter (fun e => !e.isByzantine))).recommendedDecision
    ∧ (handleByzantineFaults (calculateConsensus mixedEvals) mixedEvals).byzantineFaultHandling.byzantineAgentsDetected
      = (mixedEvals.filter (fun e => e.isByzantine)).length := by
  have h := (claim_C4_byzantine_fault_handling mixedEvals (by decide)).1 (by decide)
  exact ⟨h.1, h.2.1⟩

/-- Counterexample for C5: with every agent of the roster offline — the
claim's own example of a failing input — `coordinateIdentityDecision` does
not fail at all: the gather step succeeds vacuously and a normal session is
returned (with zero participating agents and no error description). -/
theorem claim_C5_counterexample :
    isErrorResult (coordinateIdentityDecision offlineAgents demoEvaluator
      "PET-TWIN-PET-1" "coord-2" "2025-01-01T00:00:00.000Z" 4) = false
    ∧ (sessionOf (coordinateIdentityDecision offlineAgents demoEvaluator
      "PET-TWIN-PET-1" "coord-2" "2025-01-01T00:00:00.000Z" 4)).participatingAgents = 0 := by
  exact ⟨rfl, rfl⟩

/-- Claim C5 as amended: the call never throws; it returns the error record
(carrying the error description but no participant count) exactly when some
dispatched evaluation of an online agent fails; with every agent offline
nothing is dispatched and a normal session results, with zero participating
agents, a NaN consensus ratio and a REJECTED recommendation. -/
theorem claim_C5_error_result_characterization
    (agents : List Agent) (evaluator : Agent → Except String Evaluation)
    (identityId coordinationId nowTs : String) (elapsed : Nat) :
    (isErrorResult (coordinateIdentityDecision agents evaluator identityId
        coordinationId nowTs elapsed) = true
      ↔ ∃ a ∈ agents.filter (fun x => x.status = "online"),
          ∃ m, evaluator a = Except.error m)
    ∧ (agents.filter (fun x => x.status = "online") = [] →
      isErrorResult (coordinateIdentityDecision agents evaluator identityId
        coordinationId nowTs elapsed) = false
      ∧ (sessionOf (coordinateIdentityDecision agents evaluator identityId
        coordinationId nowTs elapsed)).participatingAgents = 0
      ∧ ratioOf ((sessionOf (coordinateIdentityDecision agents evaluator identityId
        coordinationId nowTs elapsed)).consensus) = JSNum.nan
      ∧ ((sessionOf (coordinateIdentityDecision agents evaluator identityId
        coordinationId nowTs elapsed)).consensus).recommendedDecision = "REJECTED") := by
  constructor
  · cases hc : collectAll ((agents.filter (fun x => x.status = "online")).map evaluator) with
    | error m =>
      have hr : isErrorResult (coordinateIdentityDecision agents evaluator identityId
          coordinationId nowTs elapsed) = true := by
        unfold coordinateIdentityDecision
        rw [hc]
        rfl
      rw [hr]
      simp only [true_iff]
      rcases (collectAll_error_iff _).mp ⟨m, hc⟩ with ⟨x, hx, m2, hm2⟩
      rcases List.mem_map.mp hx with ⟨a, ha, rfl⟩
      exact ⟨a, ha, m2, hm2⟩
    | ok evals =>
      have hr : isErrorResult (coordinateIdentityDecision agents evaluator identityId
          coordinationId nowTs elapsed) = false := by
        unfold coordinateIdentityDecision
        rw [hc]
        rfl
      rw [hr]
      simp only [Bool.false_eq_true, false_iff]
      rintro ⟨a, ha, m, hm⟩
      have hmem : Except.error m ∈ (agents.filter (fun x => x.status = "online")).map evaluator := by
        rw [← hm]
        exact List.mem_map_of_mem evaluator ha
      rcases (collectAll_error_iff _).mpr ⟨Except.error m, hmem, m, rfl⟩ with ⟨m2, hm2⟩
      rw [hm2] at hc
      exact Except.noConfusion hc
  · intro hoff
    have hc : collectAll ((agents.filter (fun x => x.status = "online")).map evaluator)
        = Except.ok [] := by
      rw [hoff]
      rfl
    unfold coordinateIdentityDecision
    rw [hc]
    exact ⟨rfl, rfl, rfl, rfl⟩

/-- Witness for C5 (amended): instantiating the characterization at the
fully offline roster — no error result, zero participating agents, NaN
ratio, REJECTED recommendation. -/
theorem claim_C5_witness :
    isErrorResult (coordinateIdentityDecision offlineAgents demoEvaluator
      "VEH-1" "coord-5" "2025-01-01T00:00:00.000Z" 3) = false
    ∧ (sessionOf (coordinateIdentityDecision offlineAgents demoEvaluator
      "VEH-1" "coord-5" "2025-01-01T00:00:00.000Z" 3)).participatingAgents = 0
    ∧ ratioOf ((sessionOf (coordinateIdentityDecision offlineAgents demoEvaluator
      "VEH-1" "coord-5" "2025-01-01T00:00:00.000Z" 3)).consensus) = JSNum.nan
    ∧ ((sessionOf (coordinateIdentityDecision offlineAgents demoEvaluator
      "VEH-1" "coord-5" "2025-01-01T00:00:00.000Z" 3)).consensus).recommendedDecision
      = "REJECTED" :=
  (claim_C5_error_result_characterization offlineAgents demoEvaluator
    "VEH-1" "coord-5" "2025-01-01T00:00:00.000Z" 3).2 (by decide)

/-- Counterexample for C6: on the empty evaluation set — which the code
passes to `calculateConsensus` whenever every agent is offline, and for the
honest recount when every evaluation is Byzantine — the consensus ratio is
NaN, and both bound comparisons `0 <= ratio` and `ratio <= 1` are false. -/
theorem claim_C6_counterexample :
    (ratioOf (calculateConsensus [])).geQ 0 = false
    ∧ (ratioOf (calculateConsensus [])).leQ 1 = false
    ∧ ratioOf (calculateConsensus []) = JSNum.nan := by
  exact ⟨rfl, rfl, rfl⟩

/-- Claim C6 as amended: `approvals + rejections = totalAgents` holds for
every evaluation set, and the ratio bounds `0 ≤ consensusRatio ≤ 1` hold
for every non-empty evaluation set (the empty set yields a NaN ratio that
fails both comparisons). -/
theorem claim_C6_consensus_invariants (evaluations : List Evaluation) :
    (calculateConsensus evaluations).approvals
        + (calculateConsensus evaluations).rejections
      = (calculateConsensus evaluations).totalAgents
    ∧ (evaluations ≠ [] →
      (ratioOf (calculateConsensus evaluations)).geQ 0 = true
      ∧ (ratioOf (calculateConsensus evaluations)).leQ 1 = true) := by
  have hle : (evaluations.filter (fun e => e.decision = "APPROVED")).length
      ≤ evaluations.length := List.length_filter_le _ _
  constructor
  · simp only [calculateConsensus]
    omega
  · intro hne
    have hpos : 0 < evaluations.length := List.length_pos.mpr hne
    have ht : ((evaluations.length : ℚ)) ≠ 0 :=
      Nat.cast_ne_zero.mpr (Nat.pos_iff_ne_zero.mp hpos)
    simp only [calculateConsensus, ratioOf]
    unfold jsDiv
    rw [if_neg ht]
    constructor
    · simp only [JSNum.geQ, decide_eq_true_eq]
      positivity
    · simp only [JSNum.leQ, decide_eq_true_eq]
      rw [div_le_one (by positivity)]
      exact_mod_cast hle

/-- Witness for C6 (amended): the two-of-three boundary list is non-empty
and satisfies both invariants. -/
theorem claim_C6_witness :
    (calculateConsensus twoOfThreeEvals).approvals
        + (calculateConsensus twoOfThreeEvals).rejections
      = (calculateConsensus twoOfThreeEvals).totalAgents
    ∧ ((ratioOf (calculateConsensus twoOfThreeEvals)).geQ 0 = true
      ∧ (ratioOf (calculateConsensus twoOfThreeEvals)).leQ 1 = true) := by
  have h := claim_C6_consensus_invariants twoOfThreeEvals
  exact ⟨h.1, h.2 (by decide)⟩

/-- Claim C7: starting from empty histories, any sequence of appends leaves
the coordination history holding exactly the last 50 sessions appended (so
never more than 50, oldest evicted first) and the explanation history the
last 100 explanations. -/
theorem claim_C7_history_bounds
    (sessions : List CoordinationSession) (explanations : List Explanation) :
    sessions.foldl pushCoordinationHistory [] = dropExcess 50 sessions
    ∧ (sessions.foldl pushCoordinationHistory []).length ≤ 50
    ∧ explanations.foldl (pushTrim 100) [] = dropExcess 100 explanations
    ∧ (explanations.foldl (pushTrim 100) []).length ≤ 100 := by
  have h50 : sessions.foldl (pushTrim 50) [] = dropExcess 50 sessions := by
    have h := foldl_pushTrim 50 sessions [] (by simp)
    simpa using h
  have h100 : explanations.foldl (pushTrim 100) [] = dropExcess 100 explanations := by
    have h := foldl_pushTrim 100 explanations [] (by simp)
    simpa using h
  refine ⟨h50, ?_, h100, ?_⟩
  · rw [show sessions.foldl pushCoordinationHistory ([] : List CoordinationSession)
      = sessions.foldl (pushTrim 50) [] from rfl, h50]
    exact dropExcess_length_le 50 sessions
  · rw [h100]
    exact dropExcess_length_le 100 explanations

/-- Claim C8: the explanation's overall weighted confidence is the
weight-normalized sum over the non-Byzantine evaluations only, and an
all-Byzantine evaluation set yields 0. -/
theorem claim_C8_weighted_confidence (agentEvaluations : List Evaluation) :
    (calculateDetailedConfidence agentEvaluations).overall
      = specWeightedConfidence agentEvaluations
    ∧ ((∀ e ∈ agentEvaluations, e.isByzantine = true) →
      (calculateDetailedConfidence agentEvaluations).overall = 0) := by
  have hfold := foldl_confidenceStep agentEvaluations 0 0
  have hspec : specWeightedConfidence agentEvaluations
      = honestWeightedSum agentEvaluations / honestWeightSum agentEvaluations := rfl
  constructor
  · simp only [calculateDetailedConfidence, hfold, zero_add]
    by_cases hw : 0 < honestWeightSum agentEvaluations
    · rw [if_pos hw, hspec]
    · have h0 : honestWeightSum agentEvaluations = 0 :=
        le_antisymm (not_lt.mp hw) (honestWeightSum_nonneg agentEvaluations)
      rw [if_neg hw, hspec, h0, div_zero]
  · intro hall
    rcases honestSums_zero_of_all_byzantine agentEvaluations hall with ⟨h1, h2⟩
    simp only [calculateDetailedConfidence, hfold, zero_add, h2]
    norm_num

/-- Witness for C8: the all-Byzantine roster evaluation set is excluded
entirely, giving overall weighted confidence 0. -/
theorem claim_C8_witness :
    (∀ e ∈ allByzantineEvals, e.isByzantine = true)
    ∧ (calculateDetailedConfidence allByzantineEvals).overall = 0 :=
  ⟨by decide, (claim_C8_weighted_confidence allByzantineEvals).2 (by decide)⟩

/-- Claim C9: the anomaly score is the clamp-to-1 of the sum of the four
trigger contributions, it is monotone as triggers are added, and a session
hitting the Byzantine, low-ratio and low-confidence triggers together
scores exactly 1. -/
theorem claim_C9_anomaly_score (r : CoordinationSession)
    (b1 b2 b3 b4 c1 c2 c3 c4 : Bool) :
    calculateAnomalyScore r = anomalySpec (decide (3000 < r.processingTime))
        ((ratioOf r.consensus).ltQ 0.7) r.byzantineDetected
        ((averageConfidenceOf r.consensus).ltQ 0.5)
    ∧ ((b1 = true → c1 = true) → (b2 = true → c2 = true) →
       (b3 = true → c3 = true) → (b4 = true → c4 = true) →
       anomalySpec b1 b2 b3 b4 ≤ anomalySpec c1 c2 c3 c4)
    ∧ calculateAnomalyScore tripleTriggerSession = 1 := by
  refine ⟨?_, ?_, ?_⟩
  · by_cases h1 : 3000 < r.processingTime <;>
      simp [calculateAnomalyScore, anomalySpec, h1]
  · intro h1 h2 h3 h4
    unfold anomalySpec
    refine min_le_min le_rfl ?_
    have m1 := ite_trigger_mono b1 c1 h1 (0.3 : ℚ) (by norm_num)
    have m2 := ite_trigger_mono b2 c2 h2 (0.4 : ℚ) (by norm_num)
    have m3 := ite_trigger_mono b3 c3 h3 (0.5 : ℚ) (by norm_num)
    have m4 := ite_trigger_mono b4 c4 h4 (0.6 : ℚ) (by norm_num)
    exact add_le_add (add_le_add (add_le_add m1 m2) m3) m4
  · simp only [tripleTriggerSession, lowConsensusEvals, defaultAgents,
      calculateAnomalyScore, calculateConsensus, approvedEvaluation,
      byzantineEvaluation, List.filter, List.map, List.any, String.reduceEq,
      List.length, List.sum_cons, List.sum_nil, ratioOf, averageConfidenceOf]
    norm_num [jsDiv, JSNum.ltQ, min_def]

/-- Witness for C9: instantiating the monotonicity at adding the latency
and low-confidence triggers to a low-ratio-only configuration, and the
exact clamp at the triple-trigger session. -/
theorem claim_C9_witness :
    anomalySpec false true false false ≤ anomalySpec true true false true
    ∧ calculateAnomalyScore tripleTriggerSession = 1 := by
  have h := claim_C9_anomaly_score tripleTriggerSession
    false true false false true true false true
  exact ⟨h.2.1 (fun _ => rfl) (fun hx => hx) (fun hx => hx) (fun _ => rfl), h.2.2⟩

/-- Counterexample for C10: at a reading with engine temperature 95 (above
90 but not above 100) the source deducts 10 — health score 90 — while the
claim's deduction table deducts nothing, predicting 100. -/
theorem claim_C10_counterexample :
    (updateHealthScore twinState95).healthScore = 90
    ∧ claimHealthScoreTable reading95 = 100 := by
  constructor <;>
    norm_num [updateHealthScore, claimHealthScoreTable, twinState95,
      reading95, max_def]

/-- Claim C10 as amended: the recomputed health score equals the deduction
table — including the source's additional 10-point deduction for engine
temperatures in (90, 100] — applied to the current reading alone, so twins
agreeing on the current reading get the same score no matter their
telemetry histories. -/
theorem claim_C10_health_score (t u : VehicleTwinState) :
    (updateHealthScore t).healthScore = vehicleDeductionTable t.currentState
    ∧ (t.currentState = u.currentState →
      (updateHealthScore t).healthScore = (updateHealthScore u).healthScore) := by
  have key : ∀ v : VehicleTwinState,
      (updateHealthScore v).healthScore = vehicleDeductionTable v.currentState := by
    intro v
    simp only [updateHealthScore, vehicleDeductionTable]
    split_ifs <;> first | rfl | (congr 1; ring)
  exact ⟨key t, fun h => by rw [key t, key u, h]⟩

/-- Witness for C10 (amended): two twins with the same reading but empty
versus full telemetry histories get the same recomputed health score. -/
theorem claim_C10_witness :
    twinState95.currentState = twinState95Full.currentState
    ∧ (updateHealthScore twinState95).healthScore
      = (updateHealthScore twinState95Full).healthScore :=
  ⟨rfl, (claim_C10_health_score twinState95 twinState95Full).2 rfl⟩
